import Mathlib

/-!
Shallow embedding of `nova/scheduler/client/report.py`: the scheduler report
client that reconciles a compute node's resource-provider record with the
placement API.

The remote transport is modelled by an environment `Env : Nat → CallResult`
giving, for the n-th remote request issued by the client, either an HTTP
response or a raised transport fault.  The client's mutable state
(`self._resource_providers`, `self._disabled`), the list of remote requests
actually issued, and the structured log messages are threaded explicitly
through every operation as a `ClientState`.
-/

namespace NovaReport

/-- The `keystoneauth1` exception classes distinguished by `safe_connect`,
plus `other` for any exception not matched by an `except` clause
(such exceptions propagate out of the wrapper unchanged). -/
inductive Fault
  | endpointNotFound
  | missingAuthPlugin
  | connectFailure
  | other
deriving DecidableEq, Repr

/-- An HTTP response as the client reads it: `resp.status_code`, the parsed
json body fields `name` and `generation` (used on a 200 fetch), and the raw
`resp.text` used in error log messages. -/
structure Resp where
  status_code : Nat
  name : String
  generation : Int
  text : String
deriving DecidableEq, Repr

/-- Outcome of one remote request: an HTTP response, or a raised
transport exception. -/
inductive CallResult
  | resp (r : Resp)
  | exn (f : Fault)
deriving DecidableEq, Repr

/-- The `objects.ResourceProvider` record as constructed by this client. -/
structure ResourceProvider where
  uuid : String
  name : String
  generation : Int
deriving DecidableEq, Repr

/-- A remote request issued by the client (`self.get` or `self.post`). -/
inductive Request
  | get (url : String)
  | post (url : String) (uuid : String) (name : String)
deriving DecidableEq, Repr

/-- The structured log messages the module emits. -/
inductive LogEntry
  | warnEndpointNotFound
  | warnMissingAuthPlugin
  | warnConnectFailure
  | infoCreated (uuid : String) (name : String)
  | infoConflict (uuid : String)
  | errorGetFailed (uuid : String) (status_code : Nat) (err_text : String)
  | errorCreateFailed (uuid : String) (status_code : Nat) (err_text : String)
deriving DecidableEq, Repr

/-- The transport environment: the response (or raised fault) to the n-th
remote request issued by the client in this process. -/
def Env : Type := Nat → CallResult

/-- The mutable state of a `SchedulerReportClient` instance, together with
the observable trace: `resource_providers` models `self._resource_providers`
(a uuid-keyed dict), `disabled` models `self._disabled`, `calls` records the
remote requests issued so far, `log` the messages logged so far. -/
structure ClientState where
  resource_providers : List (String × ResourceProvider)
  disabled : Bool
  calls : List Request
  log : List LogEntry
deriving DecidableEq, Repr

/-- Python dict lookup `d[k]` / `k in d` on the cache. -/
def dictGet (d : List (String × ResourceProvider)) (k : String) :
    Option ResourceProvider :=
  match d with
  | [] => none
  | (k', v) :: rest => if k' = k then some v else dictGet rest k

/-- Python dict assignment `d[k] = v` on the cache. -/
def dictSet (d : List (String × ResourceProvider)) (k : String)
    (v : ResourceProvider) : List (String × ResourceProvider) :=
  match d with
  | [] => [(k, v)]
  | (k', v') :: rest =>
    if k' = k then (k, v) :: rest else (k', v') :: dictSet rest k v

/-- Result of a wrapped operation: a raised fault, or a normal return of
`Some record` / `None`. -/
abbrev RpResult := Except Fault (Option ResourceProvider)

/-- The state after recording the GET request of `_get_resource_provider`. -/
def afterGet (s : ClientState) (uuid : String) : ClientState :=
  { s with calls := s.calls ++ [Request.get ("/resource_providers/" ++ uuid)] }

/-- The state after recording the POST request of `_create_resource_provider`. -/
def afterPost (s : ClientState) (uuid name : String) : ClientState :=
  { s with calls := s.calls ++ [Request.post "/resource_providers" uuid name] }

/-- Body of `_get_resource_provider` (before the `safe_connect` wrapper):
issue `GET /resource_providers/{uuid}`; on 200 build a `ResourceProvider`
from the requested uuid and the body's `name` and `generation`; on 404
return `None`; otherwise log an error (with uuid, status code and response
text) and fall through returning `None`.  A raised transport fault is
modelled as `Except.error`. -/
def get_resource_provider_body (env : Env) (s : ClientState) (uuid : String) :
    RpResult × ClientState :=
  match env s.calls.length with
  | CallResult.exn f => (Except.error f, afterGet s uuid)
  | CallResult.resp r =>
    if r.status_code = 200 then
      (Except.ok (some { uuid := uuid, name := r.name,
                         generation := r.generation }),
       afterGet s uuid)
    else if r.status_code = 404 then
      (Except.ok none, afterGet s uuid)
    else
      (Except.ok none,
       { afterGet s uuid with
           log := s.log ++ [LogEntry.errorGetFailed uuid r.status_code r.text] })

/-- The `safe_connect` decorator: if `self._disabled`, return `None` without
calling the operation; otherwise run it, catching `EndpointNotFound` and
`MissingAuthPlugin` (warn, set `self._disabled = True`, return `None`) and
`ConnectFailure` (warn, return `None`); any other exception propagates. -/
def safe_connect (f : Env → ClientState → RpResult × ClientState)
    (env : Env) (s : ClientState) : RpResult × ClientState :=
  if s.disabled then (Except.ok none, s)
  else
    match f env s with
    | (Except.ok v, s1) => (Except.ok v, s1)
    | (Except.error Fault.endpointNotFound, s1) =>
      (Except.ok none,
       { s1 with disabled := true,
                 log := s1.log ++ [LogEntry.warnEndpointNotFound] })
    | (Except.error Fault.missingAuthPlugin, s1) =>
      (Except.ok none,
       { s1 with disabled := true,
                 log := s1.log ++ [LogEntry.warnMissingAuthPlugin] })
    | (Except.error Fault.connectFailure, s1) =>
      (Except.ok none, { s1 with log := s1.log ++ [LogEntry.warnConnectFailure] })
    | (Except.error Fault.other, s1) => (Except.error Fault.other, s1)

/-- The `_get_resource_provider` method, wrapped by `safe_connect`. -/
def get_resource_provider (env : Env) (s : ClientState) (uuid : String) :
    RpResult × ClientState :=
  safe_connect (fun e st => get_resource_provider_body e st uuid) env s

/-- Body of `_create_resource_provider` (before the `safe_connect` wrapper):
issue `POST /resource_providers` with `{uuid, name}`; on 201 log and return a
new record with `generation = 1`; on 409 log the concurrent-creation race and
delegate to the (wrapped) `_get_resource_provider`; otherwise log an error
and fall through returning `None`. -/
def create_resource_provider_body (env : Env) (s : ClientState)
    (uuid name : String) : RpResult × ClientState :=
  match env s.calls.length with
  | CallResult.exn f => (Except.error f, afterPost s uuid name)
  | CallResult.resp r =>
    if r.status_code = 201 then
      (Except.ok (some { uuid := uuid, name := name, generation := 1 }),
       { afterPost s uuid name with
           log := s.log ++ [LogEntry.infoCreated uuid name] })
    else if r.status_code = 409 then
      get_resource_provider env
        { afterPost s uuid name with
            log := s.log ++ [LogEntry.infoConflict uuid] } uuid
    else
      (Except.ok none,
       { afterPost s uuid name with
           log := s.log ++ [LogEntry.errorCreateFailed uuid r.status_code r.text] })

/-- The `_create_resource_provider` method, wrapped by `safe_connect`. -/
def create_resource_provider (env : Env) (s : ClientState) (uuid name : String) :
    RpResult × ClientState :=
  safe_connect (fun e st => create_resource_provider_body e st uuid name) env s

/-- Python truthiness of `name = name or uuid`: `None` and the empty string
are both replaced by `uuid`. -/
def pyOr (name : Option String) (uuid : String) : String :=
  match name with
  | none => uuid
  | some n => if n = "" then uuid else n

/-- The `_ensure_resource_provider` method: cached hit returns immediately; on a miss,
fetch; if absent, create under the effective name; if that also yields
`None`, return `None` without caching; otherwise cache and return the
record.  Not itself wrapped by `safe_connect`. -/
def ensure_resource_provider (env : Env) (s : ClientState) (uuid : String)
    (name : Option String) : RpResult × ClientState :=
  match dictGet s.resource_providers uuid with
  | some rp => (Except.ok (some rp), s)
  | none =>
    match get_resource_provider env s uuid with
    | (Except.error f, s1) => (Except.error f, s1)
    | (Except.ok (some rp), s1) =>
      (Except.ok (some rp),
       { s1 with resource_providers := dictSet s1.resource_providers uuid rp })
    | (Except.ok none, s1) =>
      match create_resource_provider env s1 uuid (pyOr name uuid) with
      | (Except.error f, s2) => (Except.error f, s2)
      | (Except.ok none, s2) => (Except.ok none, s2)
      | (Except.ok (some rp), s2) =>
        (Except.ok (some rp),
         { s2 with resource_providers := dictSet s2.resource_providers uuid rp })

/-- The `nova.objects.ComputeNode` fields this client reads. -/
structure ComputeNode where
  uuid : String
  hypervisor_hostname : String
deriving DecidableEq, Repr

/-- The `update_resource_stats` method: persist the compute node via the external
collaborator (`compute_node.save()`, modelled as a no-op on client state),
then ensure its resource-provider record exists; the record is not returned
to the caller, but an exception escaping `_ensure_resource_provider`
propagates. -/
def update_resource_stats (env : Env) (s : ClientState)
    (compute_node : ComputeNode) : Except Fault Unit × ClientState :=
  match ensure_resource_provider env s compute_node.uuid
      (some compute_node.hypervisor_hostname) with
  | (Except.error f, s1) => (Except.error f, s1)
  | (Except.ok _, s1) => (Except.ok (), s1)

/-- The state of a freshly constructed `SchedulerReportClient`: empty cache,
`_disabled = False`, no requests issued, nothing logged. -/
def initialState : ClientState :=
  { resource_providers := [], disabled := false, calls := [], log := [] }

/-- The client state immediately after `_create_resource_provider` has
received a 409 response: the POST is recorded and the race logged; this is
the point at which the code delegates to `_get_resource_provider`. -/
def postConflictState (s : ClientState) (uuid name : String) : ClientState :=
  { afterPost s uuid name with
      log := s.log ++ [LogEntry.infoConflict uuid] }

/-- A sample cached record, for concrete instantiations. -/
def rp0 : ResourceProvider := { uuid := "u", name := "n", generation := 3 }

/-- A client whose cache already holds `rp0` under `"u"`. -/
def sCached : ClientState := { initialState with resource_providers := [("u", rp0)] }

/-- A client whose circuit has been tripped (`_disabled = True`), empty cache. -/
def sDisabled : ClientState := { initialState with disabled := true }

/-- A tripped client that still holds `rp0` in its cache. -/
def sDisabledCached : ClientState := { sCached with disabled := true }

/-- A sample compute node. -/
def cn0 : ComputeNode := { uuid := "u", hypervisor_hostname := "h" }

/-- A transport on which every request raises an unclassified exception. -/
def envNone : Env := fun _ => CallResult.exn Fault.other

/-- A transport on which every request raises `EndpointNotFound`. -/
def envEndpointDown : Env := fun _ => CallResult.exn Fault.endpointNotFound

/-- A 404 response. -/
def resp404 : Resp := { status_code := 404, name := "", generation := 0, text := "not found" }

/-- A 201 created response. -/
def resp201 : Resp := { status_code := 201, name := "", generation := 0, text := "" }

/-- A 409 conflict response. -/
def resp409 : Resp := { status_code := 409, name := "", generation := 0, text := "conflict" }

/-- A 503 server-error response. -/
def resp503 : Resp := { status_code := 503, name := "", generation := 0, text := "server error" }

/-- A 200 response whose body carries name `host-b` and generation 4. -/
def resp200hostB : Resp :=
  { status_code := 200, name := "host-b", generation := 4, text := "" }

/-- A 200 response for the record created by a concurrent racer. -/
def resp200other : Resp :=
  { status_code := 200, name := "host-c-other", generation := 2, text := "" }

/-- A transport run: fetch sees 404, create succeeds with 201. -/
def envCreate : Env := fun n =>
  match n with
  | 0 => CallResult.resp resp404
  | 1 => CallResult.resp resp201
  | _ => CallResult.exn Fault.other

/-- A transport run: fetch sees 404, create hits a 409 race, the fallback
fetch finds the racer's record. -/
def envConflict : Env := fun n =>
  match n with
  | 0 => CallResult.resp resp404
  | 1 => CallResult.resp resp409
  | 2 => CallResult.resp resp200other
  | _ => CallResult.exn Fault.other

/-- A transport run: two connection failures, then the service answers. -/
def envTransient : Env := fun n =>
  match n with
  | 0 => CallResult.exn Fault.connectFailure
  | 1 => CallResult.exn Fault.connectFailure
  | _ => CallResult.resp resp200hostB

/-- A transport on which every fetch returns the `host-b` record. -/
def envFetch200 : Env := fun _ => CallResult.resp resp200hostB

/-- A transport on which every request gets a 503. -/
def env503 : Env := fun _ => CallResult.resp resp503

end NovaReport
namespace NovaReport

theorem get_disabled (env : Env) (s : ClientState) (uuid : String)
    (hd : s.disabled = true) :
    get_resource_provider env s uuid = (Except.ok none, s) := by
  simp [get_resource_provider, safe_connect, hd]

theorem get_exn_endpoint (env : Env) (s : ClientState) (uuid : String)
    (hd : s.disabled = false)
    (h : env s.calls.length = CallResult.exn Fault.endpointNotFound) :
    get_resource_provider env s uuid =
      (Except.ok none,
       { afterGet s uuid with
           disabled := true,
           log := s.log ++ [LogEntry.warnEndpointNotFound] }) := by
  simp [get_resource_provider, safe_connect, get_resource_provider_body, hd, h, afterGet]

theorem get_resp_200 (env : Env) (s : ClientState) (uuid : String) (r : Resp)
    (hd : s.disabled = false)
    (h : env s.calls.length = CallResult.resp r) (hs : r.status_code = 200) :
    get_resource_provider env s uuid =
      (Except.ok (some { uuid := uuid, name := r.name, generation := r.generation }),
       afterGet s uuid) := by
  simp [get_resource_provider, safe_connect, get_resource_provider_body, hd, h, hs]

theorem get_resp_404 (env : Env) (s : ClientState) (uuid : String) (r : Resp)
    (hd : s.disabled = false)
    (h : env s.calls.length = CallResult.resp r) (hs : r.status_code = 404) :
    get_resource_provider env s uuid = (Except.ok none, afterGet s uuid) := by
  simp [get_resource_provider, safe_connect, get_resource_provider_body, hd, h, hs]

theorem get_resp_other (env : Env) (s : ClientState) (uuid : String) (r : Resp)
    (hd : s.disabled = false)
    (h : env s.calls.length = CallResult.resp r)
    (h200 : r.status_code ≠ 200) (h404 : r.status_code ≠ 404) :
    get_resource_provider env s uuid =
      (Except.ok none,
       { afterGet s uuid with
           log := s.log ++ [LogEntry.errorGetFailed uuid r.status_code r.text] }) := by
  simp [get_resource_provider, safe_connect, get_resource_provider_body, hd, h, h200, h404]

theorem get_exn_auth (env : Env) (s : ClientState) (uuid : String)
    (hd : s.disabled = false)
    (h : env s.calls.length = CallResult.exn Fault.missingAuthPlugin) :
    get_resource_provider env s uuid =
      (Except.ok none,
       { afterGet s uuid with
           disabled := true,
           log := s.log ++ [LogEntry.warnMissingAuthPlugin] }) := by
  simp [get_resource_provider, safe_connect, get_resource_provider_body, hd, h, afterGet]

theorem get_exn_connect (env : Env) (s : ClientState) (uuid : String)
    (hd : s.disabled = false)
    (h : env s.calls.length = CallResult.exn Fault.connectFailure) :
    get_resource_provider env s uuid =
      (Except.ok none,
       { afterGet s uuid with
           log := s.log ++ [LogEntry.warnConnectFailure] }) := by
  simp [get_resource_provider, safe_connect, get_resource_provider_body, hd, h, afterGet]

theorem get_exn_other (env : Env) (s : ClientState) (uuid : String)
    (hd : s.disabled = false)
    (h : env s.calls.length = CallResult.exn Fault.other) :
    get_resource_provider env s uuid = (Except.error Fault.other, afterGet s uuid) := by
  simp [get_resource_provider, safe_connect, get_resource_provider_body, hd, h]

theorem create_disabled (env : Env) (s : ClientState) (uuid name : String)
    (hd : s.disabled = true) :
    create_resource_provider env s uuid name = (Except.ok none, s) := by
  simp [create_resource_provider, safe_connect, hd]

theorem create_resp_201 (env : Env) (s : ClientState) (uuid name : String) (r : Resp)
    (hd : s.disabled = false)
    (h : env s.calls.length = CallResult.resp r) (hs : r.status_code = 201) :
    create_resource_provider env s uuid name =
      (Except.ok (some { uuid := uuid, name := name, generation := 1 }),
       { afterPost s uuid name with
           log := s.log ++ [LogEntry.infoCreated uuid name] }) := by
  simp [create_resource_provider, safe_connect, create_resource_provider_body, hd, h, hs]

theorem get_error_is_other (env : Env) (s : ClientState) (uuid : String) (f : Fault)
    (h : (get_resource_provider env s uuid).1 = Except.error f) : f = Fault.other := by
  by_cases hd : s.disabled
  · simp [get_resource_provider, safe_connect, hd] at h
  · simp only [get_resource_provider, safe_connect, hd, if_false, Bool.false_eq_true] at h
    rcases hb : (get_resource_provider_body env s uuid) with ⟨res, s1⟩
    cases res with
    | ok v => simp [hb] at h
    | error fe => cases fe <;> simp [hb] at h <;> simp_all

theorem create_resp_409 (env : Env) (s : ClientState) (uuid name : String) (r : Resp)
    (hd : s.disabled = false)
    (h : env s.calls.length = CallResult.resp r) (hs : r.status_code = 409) :
    create_resource_provider env s uuid name =
      get_resource_provider env (postConflictState s uuid name) uuid := by
  have hbody : create_resource_provider_body env s uuid name =
      get_resource_provider env (postConflictState s uuid name) uuid := by
    simp [create_resource_provider_body, h, hs, postConflictState]
  rcases hg : get_resource_provider env (postConflictState s uuid name) uuid with ⟨res, s1⟩
  cases res with
  | ok v =>
    simp [create_resource_provider, safe_connect, hd, hbody, hg]
  | error fe =>
    have hfe : fe = Fault.other := get_error_is_other env _ uuid fe (by rw [hg])
    subst hfe
    simp [create_resource_provider, safe_connect, hd, hbody, hg]

theorem create_resp_other (env : Env) (s : ClientState) (uuid name : String) (r : Resp)
    (hd : s.disabled = false)
    (h : env s.calls.length = CallResult.resp r)
    (h201 : r.status_code ≠ 201) (h409 : r.status_code ≠ 409) :
    create_resource_provider env s uuid name =
      (Except.ok none,
       { afterPost s uuid name with
           log := s.log ++ [LogEntry.errorCreateFailed uuid r.status_code r.text] }) := by
  simp [create_resource_provider, safe_connect, create_resource_provider_body, hd, h, h201, h409]

theorem create_exn_connect (env : Env) (s : ClientState) (uuid name : String)
    (hd : s.disabled = false)
    (h : env s.calls.length = CallResult.exn Fault.connectFailure) :
    create_resource_provider env s uuid name =
      (Except.ok none,
       { afterPost s uuid name with
           log := s.log ++ [LogEntry.warnConnectFailure] }) := by
  simp [create_resource_provider, safe_connect, create_resource_provider_body, hd, h, afterPost]

theorem create_exn_endpoint (env : Env) (s : ClientState) (uuid name : String)
    (hd : s.disabled = false)
    (h : env s.calls.length = CallResult.exn Fault.endpointNotFound) :
    create_resource_provider env s uuid name =
      (Except.ok none,
       { afterPost s uuid name with
           disabled := true,
           log := s.log ++ [LogEntry.warnEndpointNotFound] }) := by
  simp [create_resource_provider, safe_connect, create_resource_provider_body, hd, h, afterPost]

theorem create_exn_auth (env : Env) (s : ClientState) (uuid name : String)
    (hd : s.disabled = false)
    (h : env s.calls.length = CallResult.exn Fault.missingAuthPlugin) :
    create_resource_provider env s uuid name =
      (Except.ok none,
       { afterPost s uuid name with
           disabled := true,
           log := s.log ++ [LogEntry.warnMissingAuthPlugin] }) := by
  simp [create_resource_provider, safe_connect, create_resource_provider_body, hd, h, afterPost]

theorem create_error_is_other (env : Env) (s : ClientState) (uuid name : String) (f : Fault)
    (h : (create_resource_provider env s uuid name).1 = Except.error f) : f = Fault.other := by
  by_cases hd : s.disabled
  · simp [create_resource_provider, safe_connect, hd] at h
  · simp only [create_resource_provider, safe_connect, hd, if_false, Bool.false_eq_true] at h
    rcases hb : (create_resource_provider_body env s uuid name) with ⟨res, s1⟩
    cases res with
    | ok v => simp [hb] at h
    | error fe => cases fe <;> simp [hb] at h <;> simp_all

theorem get_body_keeps_cache (env : Env) (s : ClientState) (uuid : String) :
    (get_resource_provider_body env s uuid).2.resource_providers = s.resource_providers := by
  unfold get_resource_provider_body
  split
  · simp [afterGet]
  · split
    · simp [afterGet]
    · split <;> simp [afterGet]

theorem get_keeps_cache (env : Env) (s : ClientState) (uuid : String) :
    (get_resource_provider env s uuid).2.resource_providers = s.resource_providers := by
  by_cases hd : s.disabled
  · simp [get_resource_provider, safe_connect, hd]
  · have hb := get_body_keeps_cache env s uuid
    rcases hres : get_resource_provider_body env s uuid with ⟨res, s1⟩
    rw [hres] at hb
    cases res with
    | ok v =>
      simp [get_resource_provider, safe_connect, hd, hres]
      exact hb
    | error fe =>
      cases fe <;> simp [get_resource_provider, safe_connect, hd, hres] <;> exact hb

theorem create_body_keeps_cache (env : Env) (s : ClientState) (uuid name : String) :
    (create_resource_provider_body env s uuid name).2.resource_providers
      = s.resource_providers := by
  unfold create_resource_provider_body
  split
  · simp [afterPost]
  · split
    · simp [afterPost]
    · split
      · rw [get_keeps_cache]
        simp [postConflictState, afterPost]
      · simp [afterPost]

theorem create_keeps_cache (env : Env) (s : ClientState) (uuid name : String) :
    (create_resource_provider env s uuid name).2.resource_providers
      = s.resource_providers := by
  by_cases hd : s.disabled
  · simp [create_resource_provider, safe_connect, hd]
  · have hb := create_body_keeps_cache env s uuid name
    rcases hres : create_resource_provider_body env s uuid name with ⟨res, s1⟩
    rw [hres] at hb
    cases res with
    | ok v =>
      simp [create_resource_provider, safe_connect, hd, hres]
      exact hb
    | error fe =>
      cases fe <;> simp [create_resource_provider, safe_connect, hd, hres] <;> exact hb

theorem dictGet_dictSet_self (d : List (String × ResourceProvider)) (k : String)
    (v : ResourceProvider) : dictGet (dictSet d k v) k = some v := by
  induction d with
  | nil => simp [dictGet, dictSet]
  | cons hd tl ih =>
    rcases hd with ⟨k', v'⟩
    by_cases hk : k' = k <;> simp [dictGet, dictSet, hk, ih]

theorem ensure_hit (env : Env) (s : ClientState) (uuid : String) (nm : Option String)
    (rp : ResourceProvider) (h : dictGet s.resource_providers uuid = some rp) :
    ensure_resource_provider env s uuid nm = (Except.ok (some rp), s) := by
  simp [ensure_resource_provider, h]

theorem ensure_disabled_eq (env : Env) (s : ClientState) (uuid : String) (nm : Option String)
    (hd : s.disabled = true) :
    ensure_resource_provider env s uuid nm =
      (Except.ok (dictGet s.resource_providers uuid), s) := by
  unfold ensure_resource_provider
  cases hdg : dictGet s.resource_providers uuid with
  | some rp => simp
  | none => simp [get_disabled env s uuid hd, create_disabled env s uuid (pyOr nm uuid) hd]

theorem ensure_success_cached (env : Env) (s : ClientState) (uuid : String)
    (nm : Option String) (rp : ResourceProvider)
    (h : (ensure_resource_provider env s uuid nm).1 = Except.ok (some rp)) :
    dictGet (ensure_resource_provider env s uuid nm).2.resource_providers uuid
      = some rp := by
  unfold ensure_resource_provider at h ⊢
  cases hdg : dictGet s.resource_providers uuid with
  | some rp' =>
    simp [hdg] at h ⊢
    exact h
  | none =>
    rcases hg : get_resource_provider env s uuid with ⟨res, s1⟩
    cases res with
    | error f => simp [hdg, hg] at h
    | ok v =>
      cases v with
      | some rp' =>
        simp [hdg, hg] at h ⊢
        rw [← h]
        exact dictGet_dictSet_self _ _ _
      | none =>
        rcases hcr : create_resource_provider env s1 uuid (pyOr nm uuid) with ⟨res2, s2⟩
        cases res2 with
        | error f => simp [hdg, hg, hcr] at h
        | ok v2 =>
          cases v2 with
          | none => simp [hdg, hg, hcr] at h
          | some rp' =>
            simp [hdg, hg, hcr] at h ⊢
            rw [← h]
            exact dictGet_dictSet_self _ _ _

theorem ensure_error_is_other (env : Env) (s : ClientState) (uuid : String)
    (nm : Option String) (f : Fault)
    (h : (ensure_resource_provider env s uuid nm).1 = Except.error f) :
    f = Fault.other := by
  unfold ensure_resource_provider at h
  cases hdg : dictGet s.resource_providers uuid with
  | some rp => simp [hdg] at h
  | none =>
    rcases hg : get_resource_provider env s uuid with ⟨res1, s1⟩
    cases res1 with
    | error f1 =>
      simp [hdg, hg] at h
      rw [← h]
      exact get_error_is_other env s uuid f1 (by rw [hg])
    | ok v =>
      cases v with
      | some rp => simp [hdg, hg] at h
      | none =>
        rcases hcr : create_resource_provider env s1 uuid (pyOr nm uuid) with ⟨res2, s2⟩
        cases res2 with
        | error f2 =>
          simp [hdg, hg, hcr] at h
          rw [← h]
          exact create_error_is_other env s1 uuid (pyOr nm uuid) f2 (by rw [hcr])
        | ok v2 => cases v2 <;> simp [hdg, hg, hcr] at h

theorem update_error_is_other (env : Env) (s : ClientState) (cn : ComputeNode) (f : Fault)
    (h : (update_resource_stats env s cn).1 = Except.error f) : f = Fault.other := by
  unfold update_resource_stats at h
  rcases he : ensure_resource_provider env s cn.uuid (some cn.hypervisor_hostname)
      with ⟨res, s1⟩
  cases res with
  | error f1 =>
    simp [he] at h
    rw [← h]
    exact ensure_error_is_other env s cn.uuid (some cn.hypervisor_hostname) f1 (by rw [he])
  | ok v => simp [he] at h

theorem ensure_fetch404_create201 (env : Env) (s : ClientState) (uuid : String)
    (nm : Option String) (r1 r2 : Resp)
    (hc : dictGet s.resource_providers uuid = none) (hd : s.disabled = false)
    (h1 : env s.calls.length = CallResult.resp r1) (h1s : r1.status_code = 404)
    (h2 : env (s.calls.length + 1) = CallResult.resp r2) (h2s : r2.status_code = 201) :
    (ensure_resource_provider env s uuid nm).1
      = Except.ok (some { uuid := uuid, name := pyOr nm uuid, generation := 1 })
  ∧ dictGet (ensure_resource_provider env s uuid nm).2.resource_providers uuid
      = some { uuid := uuid, name := pyOr nm uuid, generation := 1 } := by
  have hg := get_resp_404 env s uuid r1 hd h1 h1s
  have hc2 := create_resp_201 env (afterGet s uuid) uuid (pyOr nm uuid) r2
      (by simp [afterGet, hd]) (by simpa [afterGet] using h2) h2s
  constructor
  · simp [ensure_resource_provider, hc, hg, hc2]
  · simp only [ensure_resource_provider, hc, hg, hc2]
    simp [afterPost, afterGet, dictGet_dictSet_self]

theorem ensure_fetch404_create409 (env : Env) (s : ClientState) (uuid : String)
    (nm : Option String) (r1 r2 : Resp)
    (hc : dictGet s.resource_providers uuid = none) (hd : s.disabled = false)
    (h1 : env s.calls.length = CallResult.resp r1) (h1s : r1.status_code = 404)
    (h2 : env (s.calls.length + 1) = CallResult.resp r2) (h2s : r2.status_code = 409) :
    create_resource_provider env (get_resource_provider env s uuid).2 uuid (pyOr nm uuid)
      = get_resource_provider env
          (postConflictState (get_resource_provider env s uuid).2 uuid (pyOr nm uuid)) uuid
  ∧ (ensure_resource_provider env s uuid nm).1
      = (get_resource_provider env
          (postConflictState (get_resource_provider env s uuid).2 uuid (pyOr nm uuid)) uuid).1 := by
  have hg := get_resp_404 env s uuid r1 hd h1 h1s
  have h409 := create_resp_409 env (afterGet s uuid) uuid (pyOr nm uuid) r2
      (by simp [afterGet, hd]) (by simpa [afterGet] using h2) h2s
  have hg2 : (get_resource_provider env s uuid).2 = afterGet s uuid := by rw [hg]
  rw [hg2]
  refine ⟨h409, ?_⟩
  rcases hres : get_resource_provider env
      (postConflictState (afterGet s uuid) uuid (pyOr nm uuid)) uuid with ⟨res, s2⟩
  rw [hres] at h409
  cases res with
  | error f => simp [ensure_resource_provider, hc, hg, h409]
  | ok v => cases v <;> simp [ensure_resource_provider, hc, hg, h409]

theorem connect_failure_core (env : Env) (s : ClientState) (uuid : String)
    (nm : Option String) (r : Resp)
    (hc : dictGet s.resource_providers uuid = none) (hd : s.disabled = false)
    (h1 : env s.calls.length = CallResult.exn Fault.connectFailure)
    (h2 : env (s.calls.length + 1) = CallResult.exn Fault.connectFailure)
    (h3 : env (s.calls.length + 2) = CallResult.resp r) (h3s : r.status_code = 200) :
    get_resource_provider env s uuid
      = (Except.ok none,
         { afterGet s uuid with log := s.log ++ [LogEntry.warnConnectFailure] })
  ∧ (ensure_resource_provider env s uuid nm).1 = Except.ok none
  ∧ (ensure_resource_provider env s uuid nm).2.disabled = false
  ∧ (ensure_resource_provider env (ensure_resource_provider env s uuid nm).2 uuid nm).1
      = Except.ok (some { uuid := uuid, name := r.name, generation := r.generation }) := by
  have hg := get_exn_connect env s uuid hd h1
  set s1 : ClientState :=
    { afterGet s uuid with log := s.log ++ [LogEntry.warnConnectFailure] } with hs1
  have hcr := create_exn_connect env s1 uuid (pyOr nm uuid)
      (by simp [hs1, afterGet, hd]) (by simp only [hs1]; simpa [afterGet] using h2)
  set s2 : ClientState :=
    { afterPost s1 uuid (pyOr nm uuid) with
        log := s1.log ++ [LogEntry.warnConnectFailure] } with hs2
  have he : ensure_resource_provider env s uuid nm = (Except.ok none, s2) := by
    simp only [ensure_resource_provider, hc, hg, hcr]
  have hrps2 : s2.resource_providers = s.resource_providers := by
    simp [hs2, hs1, afterPost, afterGet]
  have hd2 : s2.disabled = false := by
    simp [hs2, hs1, afterPost, afterGet, hd]
  have hlen2 : s2.calls.length = s.calls.length + 2 := by
    simp [hs2, hs1, afterPost, afterGet]
  have hg2 := get_resp_200 env s2 uuid r hd2 (by rw [hlen2]; exact h3) h3s
  refine ⟨hg, ?_, ?_, ?_⟩
  · rw [he]
  · rw [he]
    exact hd2
  · rw [he]
    have hcache2 : dictGet s2.resource_providers uuid = none := by
      rw [hrps2]
      exact hc
    simp only [ensure_resource_provider, hcache2, hg2]

end NovaReport

namespace NovaReport

/-- Claim C1: if the create request receives HTTP status 409 (after an
initial fetch saw 404), then `_create_resource_provider` returns exactly the
result (and state) of the immediately subsequent `_get_resource_provider`
delegation, and `_ensure_resource_provider`'s final result equals that fetch
result — the fetched record, possibly with a different name and generation
than was attempted, or absent if that fetch yields absent. -/
theorem conflict_create_delegates_to_fetch (env envC : Env) (s : ClientState)
    (uuid : String) (nm : Option String) (r1 r2 : Resp)
    (hc : dictGet s.resource_providers uuid = none) (hd : s.disabled = false)
    (h1 : env s.calls.length = CallResult.resp r1) (h1s : r1.status_code = 404)
    (h2 : env (s.calls.length + 1) = CallResult.resp r2) (h2s : r2.status_code = 409) :
    (∀ (s' : ClientState) (u n : String) (r' : Resp), s'.disabled = false →
        envC s'.calls.length = CallResult.resp r' → r'.status_code = 409 →
        create_resource_provider envC s' u n
          = get_resource_provider envC (postConflictState s' u n) u)
  ∧ (ensure_resource_provider env s uuid nm).1
      = (get_resource_provider env
          (postConflictState (get_resource_provider env s uuid).2 uuid (pyOr nm uuid)) uuid).1 := by
  constructor
  · intro s' u n r' hd' h' hs'
    exact create_resp_409 envC s' u n r' hd' h' hs'
  · exact (ensure_fetch404_create409 env s uuid nm r1 r2 hc hd h1 h1s h2 h2s).2

theorem conflict_create_delegates_to_fetch_witness :
    create_resource_provider envConflict (afterGet initialState "rp-3") "rp-3" "host-c"
      = get_resource_provider envConflict
          (postConflictState (afterGet initialState "rp-3") "rp-3" "host-c") "rp-3"
  ∧ (ensure_resource_provider envConflict initialState "rp-3" (some "host-c")).1
      = (get_resource_provider envConflict
          (postConflictState (get_resource_provider envConflict initialState "rp-3").2
            "rp-3" (pyOr (some "host-c") "rp-3")) "rp-3").1 := by
  have h := conflict_create_delegates_to_fetch envConflict envConflict initialState
      "rp-3" (some "host-c") resp404 resp409 rfl rfl rfl rfl rfl rfl
  exact ⟨h.1 (afterGet initialState "rp-3") "rp-3" "host-c" resp409 rfl rfl rfl, h.2⟩

/-- Claim C2: after a wrapped operation fails with `EndpointNotFound` or
`MissingAuthPlugin`, `_disabled` is set; and whenever `_disabled` holds,
every wrapped call (any identifier, fetch or create) returns `None`
immediately with the state — hence the request trace — unchanged, and
`_ensure_resource_provider` likewise leaves the state unchanged, so the flag
is never reset for the remainder of the process. -/
theorem circuit_permanence (env envLater : Env) (s : ClientState) (uuid name : String)
    (f : Fault) (hf : f = Fault.endpointNotFound ∨ f = Fault.missingAuthPlugin)
    (hd : s.disabled = false) (he : env s.calls.length = CallResult.exn f) :
    (get_resource_provider env s uuid).2.disabled = true
  ∧ (create_resource_provider env s uuid name).2.disabled = true
  ∧ (∀ (s' : ClientState) (u n : String) (nm : Option String), s'.disabled = true →
      get_resource_provider envLater s' u = (Except.ok none, s')
    ∧ create_resource_provider envLater s' u n = (Except.ok none, s')
    ∧ ensure_resource_provider envLater s' u nm
        = (Except.ok (dictGet s'.resource_providers u), s')) := by
  refine ⟨?_, ?_, ?_⟩
  · rcases hf with hf | hf <;> subst hf
    · rw [get_exn_endpoint env s uuid hd he]
    · rw [get_exn_auth env s uuid hd he]
  · rcases hf with hf | hf <;> subst hf
    · rw [create_exn_endpoint env s uuid name hd he]
    · rw [create_exn_auth env s uuid name hd he]
  · intro s' u n nm hd'
    exact ⟨get_disabled envLater s' u hd', create_disabled envLater s' u n hd',
      ensure_disabled_eq envLater s' u nm hd'⟩

theorem circuit_permanence_witness :
    (get_resource_provider envEndpointDown initialState "u").2.disabled = true
  ∧ get_resource_provider envNone sDisabled "v" = (Except.ok none, sDisabled)
  ∧ create_resource_provider envNone sDisabled "v" "n" = (Except.ok none, sDisabled)
  ∧ ensure_resource_provider envNone sDisabled "v" none
      = (Except.ok (dictGet sDisabled.resource_providers "v"), sDisabled) := by
  have h := circuit_permanence envEndpointDown envNone initialState "u" "n"
      Fault.endpointNotFound (Or.inl rfl) rfl rfl
  have h3 := h.2.2 sDisabled "v" "n" none rfl
  exact ⟨h.1, h3.1, h3.2.1, h3.2.2⟩

/-- Claim C3: for an uncached identifier, if the fetch sees 404 and the
create request receives 201, `_ensure_resource_provider` returns a record
with the requested uuid, the effective name (`name or uuid`), and the
hardcoded generation 1, and stores that record in the cache under the
uuid. -/
theorem get_or_create_caches_generation_one (env : Env) (s : ClientState)
    (uuid : String) (nm : Option String) (r1 r2 : Resp)
    (hc : dictGet s.resource_providers uuid = none) (hd : s.disabled = false)
    (h1 : env s.calls.length = CallResult.resp r1) (h1s : r1.status_code = 404)
    (h2 : env (s.calls.length + 1) = CallResult.resp r2) (h2s : r2.status_code = 201) :
    (ensure_resource_provider env s uuid nm).1
      = Except.ok (some { uuid := uuid, name := pyOr nm uuid, generation := 1 })
  ∧ dictGet (ensure_resource_provider env s uuid nm).2.resource_providers uuid
      = some { uuid := uuid, name := pyOr nm uuid, generation := 1 } :=
  ensure_fetch404_create201 env s uuid nm r1 r2 hc hd h1 h1s h2 h2s

theorem get_or_create_caches_generation_one_witness :
    (ensure_resource_provider envCreate initialState "rp-1" (some "host-a")).1
      = Except.ok (some { uuid := "rp-1", name := pyOr (some "host-a") "rp-1",
                          generation := 1 })
  ∧ dictGet (ensure_resource_provider envCreate initialState "rp-1"
        (some "host-a")).2.resource_providers "rp-1"
      = some { uuid := "rp-1", name := pyOr (some "host-a") "rp-1", generation := 1 } :=
  get_or_create_caches_generation_one envCreate initialState "rp-1" (some "host-a")
    resp404 resp201 rfl rfl rfl rfl rfl rfl

/-- Claim C4: a cached identifier is returned immediately with the whole
state (hence the request trace) unchanged; and after any successful
`_ensure_resource_provider`, a second call for the same uuid — under any
transport whatsoever — returns the same record with state unchanged,
issuing no fetch and no create. -/
theorem ensure_cache_hit_idempotent (env env2 : Env) (s : ClientState)
    (uuid : String) (nm nm2 : Option String) (rp : ResourceProvider) :
    (dictGet s.resource_providers uuid = some rp →
       ensure_resource_provider env s uuid nm = (Except.ok (some rp), s))
  ∧ ((ensure_resource_provider env s uuid nm).1 = Except.ok (some rp) →
       ensure_resource_provider env2 (ensure_resource_provider env s uuid nm).2 uuid nm2
         = (Except.ok (some rp), (ensure_resource_provider env s uuid nm).2)) := by
  constructor
  · intro h
    exact ensure_hit env s uuid nm rp h
  · intro h
    exact ensure_hit env2 _ uuid nm2 rp (ensure_success_cached env s uuid nm rp h)

theorem ensure_cache_hit_idempotent_witness :
    ensure_resource_provider envNone sCached "u" none = (Except.ok (some rp0), sCached)
  ∧ ensure_resource_provider envNone
        (ensure_resource_provider envNone sCached "u" none).2 "u" none
      = (Except.ok (some rp0), (ensure_resource_provider envNone sCached "u" none).2) := by
  have h := ensure_cache_hit_idempotent envNone envNone sCached "u" none none rp0
  exact ⟨h.1 rfl, h.2 rfl⟩

/-- Claim C5 (amended): faults classified by `safe_connect` — endpoint not
found, missing credentials, connection failure — and remote error statuses
are absorbed and logged, with the operation returning absent; but an
unclassified exception does propagate across the public boundary (see the
counterexample), so the only fault kind any public operation can raise is
`Fault.other`. -/
theorem classified_faults_absorbed (env : Env) (s : ClientState) (uuid name : String)
    (nm : Option String) (cn : ComputeNode) (f : Fault) :
    ((get_resource_provider env s uuid).1 = Except.error f → f = Fault.other)
  ∧ ((create_resource_provider env s uuid name).1 = Except.error f → f = Fault.other)
  ∧ ((ensure_resource_provider env s uuid nm).1 = Except.error f → f = Fault.other)
  ∧ ((update_resource_stats env s cn).1 = Except.error f → f = Fault.other) :=
  ⟨get_error_is_other env s uuid f, create_error_is_other env s uuid name f,
   ensure_error_is_other env s uuid nm f, update_error_is_other env s cn f⟩

theorem classified_faults_absorbed_witness :
    (ensure_resource_provider envNone initialState "u" none).1
      = Except.error Fault.other
  ∧ Fault.other = Fault.other :=
  ⟨rfl, (classified_faults_absorbed envNone initialState "u" "n" none cn0
      Fault.other).2.2.1 rfl⟩

/-- Claim C5 counterexample: a fault not matched by any `except` clause of
`safe_connect` is raised across `_ensure_resource_provider`'s boundary
rather than being absorbed, refuting the claim that no error is ever raised
to the caller. -/
theorem ensure_propagates_unclassified_fault :
    (ensure_resource_provider envNone initialState "u" none).1
      = Except.error Fault.other := rfl

/-- Claim C6: a `ConnectFailure` on a wrapped call logs a warning, leaves
the circuit enabled, and returns no result; an `_ensure_resource_provider`
call whose fetch and create both hit connection failures returns absent with
the circuit still enabled, and a subsequent call for the same uuid proceeds
to issue remote calls and succeeds once the service answers 200. -/
theorem connect_failure_transient (env : Env) (s : ClientState) (uuid : String)
    (nm : Option String) (r : Resp)
    (hc : dictGet s.resource_providers uuid = none) (hd : s.disabled = false)
    (h1 : env s.calls.length = CallResult.exn Fault.connectFailure)
    (h2 : env (s.calls.length + 1) = CallResult.exn Fault.connectFailure)
    (h3 : env (s.calls.length + 2) = CallResult.resp r) (h3s : r.status_code = 200) :
    get_resource_provider env s uuid
      = (Except.ok none,
         { afterGet s uuid with log := s.log ++ [LogEntry.warnConnectFailure] })
  ∧ (ensure_resource_provider env s uuid nm).1 = Except.ok none
  ∧ (ensure_resource_provider env s uuid nm).2.disabled = false
  ∧ (ensure_resource_provider env (ensure_resource_provider env s uuid nm).2 uuid nm).1
      = Except.ok (some { uuid := uuid, name := r.name, generation := r.generation }) :=
  connect_failure_core env s uuid nm r hc hd h1 h2 h3 h3s

theorem connect_failure_transient_witness :
    get_resource_provider envTransient initialState "rp-2"
      = (Except.ok none,
         { afterGet initialState "rp-2" with
             log := initialState.log ++ [LogEntry.warnConnectFailure] })
  ∧ (ensure_resource_provider envTransient initialState "rp-2" none).1 = Except.ok none
  ∧ (ensure_resource_provider envTransient initialState "rp-2" none).2.disabled = false
  ∧ (ensure_resource_provider envTransient
        (ensure_resource_provider envTransient initialState "rp-2" none).2 "rp-2" none).1
      = Except.ok (some { uuid := "rp-2", name := resp200hostB.name,
                          generation := resp200hostB.generation }) :=
  connect_failure_transient envTransient initialState "rp-2" none resp200hostB
    rfl rfl rfl rfl rfl rfl

/-- Claim C7: `_get_resource_provider` returns, on 200, a record whose uuid
is the requested identifier with name and generation taken from the response
body; on 404 it returns absent; on any other status it logs an error
carrying the identifier, the status code and the response text, and returns
absent. -/
theorem get_resource_provider_status_contract (env : Env) (s : ClientState)
    (uuid : String) (r : Resp)
    (hd : s.disabled = false) (h : env s.calls.length = CallResult.resp r) :
    (r.status_code = 200 →
      get_resource_provider env s uuid
        = (Except.ok (some { uuid := uuid, name := r.name, generation := r.generation }),
           afterGet s uuid))
  ∧ (r.status_code = 404 →
      get_resource_provider env s uuid = (Except.ok none, afterGet s uuid))
  ∧ (r.status_code ≠ 200 → r.status_code ≠ 404 →
      get_resource_provider env s uuid
        = (Except.ok none,
           { afterGet s uuid with
               log := s.log ++ [LogEntry.errorGetFailed uuid r.status_code r.text] })) :=
  ⟨fun hs => get_resp_200 env s uuid r hd h hs,
   fun hs => get_resp_404 env s uuid r hd h hs,
   fun h200 h404 => get_resp_other env s uuid r hd h h200 h404⟩

theorem get_resource_provider_status_contract_witness :
    get_resource_provider envFetch200 initialState "rp-2"
      = (Except.ok (some { uuid := "rp-2", name := resp200hostB.name,
                           generation := resp200hostB.generation }),
         afterGet initialState "rp-2")
  ∧ get_resource_provider env503 initialState "w"
      = (Except.ok none,
         { afterGet initialState "w" with
             log := initialState.log
               ++ [LogEntry.errorGetFailed "w" resp503.status_code resp503.text] }) := by
  constructor
  · exact (get_resource_provider_status_contract envFetch200 initialState "rp-2"
      resp200hostB rfl rfl).1 rfl
  · exact (get_resource_provider_status_contract env503 initialState "w"
      resp503 rfl rfl).2.2 (by decide) (by decide)

/-- Claim C8: for an uncached identifier, when the fetch yields absent and
the create step also yields absent, `_ensure_resource_provider` returns
absent and the cache is left exactly as it was — no entry is stored. -/
theorem ensure_absent_leaves_cache_unchanged (env : Env) (s : ClientState)
    (uuid : String) (nm : Option String)
    (hc : dictGet s.resource_providers uuid = none)
    (hg : (get_resource_provider env s uuid).1 = Except.ok none)
    (hcr : (create_resource_provider env (get_resource_provider env s uuid).2 uuid
             (pyOr nm uuid)).1 = Except.ok none) :
    (ensure_resource_provider env s uuid nm).1 = Except.ok none
  ∧ (ensure_resource_provider env s uuid nm).2.resource_providers
      = s.resource_providers := by
  rcases hgp : get_resource_provider env s uuid with ⟨res1, s1⟩
  rw [hgp] at hg hcr
  simp at hg
  subst hg
  rcases hcp : create_resource_provider env s1 uuid (pyOr nm uuid) with ⟨res2, s2⟩
  rw [hcp] at hcr
  simp at hcr
  subst hcr
  have k1 : s1.resource_providers = s.resource_providers := by
    have hk := get_keeps_cache env s uuid
    rw [hgp] at hk
    exact hk
  have k2 : s2.resource_providers = s1.resource_providers := by
    have hk := create_keeps_cache env s1 uuid (pyOr nm uuid)
    rw [hcp] at hk
    exact hk
  constructor
  · simp [ensure_resource_provider, hc, hgp, hcp]
  · simp [ensure_resource_provider, hc, hgp, hcp, k1, k2]

theorem ensure_absent_leaves_cache_unchanged_witness :
    (ensure_resource_provider envNone sDisabled "u" none).1 = Except.ok none
  ∧ (ensure_resource_provider envNone sDisabled "u" none).2.resource_providers
      = sDisabled.resource_providers :=
  ensure_absent_leaves_cache_unchanged envNone sDisabled "u" none rfl rfl rfl

/-- Claim C9: any falsy name is replaced by the identifier — on the create
path, the effective name `name or uuid` equals the uuid both when the name
is `None` and when it is the empty string, and the record created under a
404-then-201 run carries the uuid as its name in both cases. -/
theorem falsy_name_defaults_to_uuid (env : Env) (s : ClientState) (uuid : String)
    (r1 r2 : Resp)
    (hc : dictGet s.resource_providers uuid = none) (hd : s.disabled = false)
    (h1 : env s.calls.length = CallResult.resp r1) (h1s : r1.status_code = 404)
    (h2 : env (s.calls.length + 1) = CallResult.resp r2) (h2s : r2.status_code = 201) :
    pyOr (some "") uuid = uuid
  ∧ pyOr none uuid = uuid
  ∧ (ensure_resource_provider env s uuid (some "")).1
      = Except.ok (some { uuid := uuid, name := uuid, generation := 1 })
  ∧ (ensure_resource_provider env s uuid none).1
      = Except.ok (some { uuid := uuid, name := uuid, generation := 1 }) := by
  have hempty : pyOr (some "") uuid = uuid := by simp [pyOr]
  have hnone : pyOr none uuid = uuid := rfl
  have ha := (ensure_fetch404_create201 env s uuid (some "") r1 r2 hc hd h1 h1s h2 h2s).1
  have hb := (ensure_fetch404_create201 env s uuid none r1 r2 hc hd h1 h1s h2 h2s).1
  rw [hempty] at ha
  rw [hnone] at hb
  exact ⟨hempty, hnone, ha, hb⟩

theorem falsy_name_defaults_to_uuid_witness :
    pyOr (some "") "rp-1" = "rp-1"
  ∧ pyOr none "rp-1" = "rp-1"
  ∧ (ensure_resource_provider envCreate initialState "rp-1" (some "")).1
      = Except.ok (some { uuid := "rp-1", name := "rp-1", generation := 1 })
  ∧ (ensure_resource_provider envCreate initialState "rp-1" none).1
      = Except.ok (some { uuid := "rp-1", name := "rp-1", generation := 1 }) :=
  falsy_name_defaults_to_uuid envCreate initialState "rp-1" resp404 resp201
    rfl rfl rfl rfl rfl rfl

/-- Claim C10: the circuit breaker does not affect cache hits — with the
disabled flag set, an identifier already in the cache is still returned
(the lookup precedes every wrapped remote operation), while an uncached
identifier yields absent. -/
theorem cache_hit_bypasses_circuit (env : Env) (s : ClientState) (uuid u2 : String)
    (nm nm2 : Option String) (rp : ResourceProvider) (hd : s.disabled = true) :
    (dictGet s.resource_providers uuid = some rp →
       ensure_resource_provider env s uuid nm = (Except.ok (some rp), s))
  ∧ (dictGet s.resource_providers u2 = none →
       ensure_resource_provider env s u2 nm2 = (Except.ok none, s)) := by
  constructor
  · intro h
    exact ensure_hit env s uuid nm rp h
  · intro h
    rw [ensure_disabled_eq env s u2 nm2 hd, h]

theorem cache_hit_bypasses_circuit_witness :
    ensure_resource_provider envNone sDisabledCached "u" none
      = (Except.ok (some rp0), sDisabledCached)
  ∧ ensure_resource_provider envNone sDisabledCached "w" none
      = (Except.ok none, sDisabledCached) := by
  have h := cache_hit_bypasses_circuit envNone sDisabledCached "u" "w" none none rp0 rfl
  exact ⟨h.1 rfl, h.2 rfl⟩

end NovaReport
